import Mathlib

/-!
Verification of the options-alerts task-orchestration runtime.

Shallow embedding of the parts of the repository that the checked claims
are about:

* `services/core/cache_manager.py` — the durable TTL cache
  (`CacheManager.is_expired`, `add`, `get`, `is_cached`,
  `_convert_nested_tuples`, `_save_cache`);
* `models/cache_manager.py` — the legacy cache manager still imported by
  `services/scanner.py` and `services/sell_scanner.py` (its `_save_cache`);
* `services/threading/thread_manager.py` — `ThreadWrapper.run`,
  `ThreadManager.stop_all`, `ThreadManager._handle_file_change`;
* `services/scanner/scanner_utils.py` — `wait_rate_limit`;
* `services/scanner/buy_scanner.py` — `api_worker`, `analysis_worker`,
  and the resume-index computation at the start of `run_buy_scan`.

Times are modelled in whole seconds (`Int` for wall-clock instants,
matching Python datetime arithmetic; `Nat` where the source only ever
sees non-negative quantities).
-/

namespace OptionsAlerts

/-! ### TTL configuration — `services/core/cache_manager.py`, `CacheManager.is_expired` -/

/-- The TTL components handed to the `CacheManager` constructor
(`ttl_days`, `ttl_hours`, `ttl_minutes`); `none` models Python `None`.
The repository only ever constructs whole-valued TTLs. -/
structure CacheConfig where
  ttl_days : Option Nat
  ttl_hours : Option Nat
  ttl_minutes : Option Nat
deriving DecidableEq, Repr

def secondsPerMinute : Nat := 60
def secondsPerHour : Nat := 3600
def secondsPerDay : Nat := 86400

/-- The TTL in seconds computed by `CacheManager.is_expired`: each missing
component is replaced by 0, a fully zero configuration is replaced by 30
days, and the resulting `timedelta(days, hours, minutes)` is the SUM of the
three components. -/
def ttlSeconds (cfg : CacheConfig) : Nat :=
  let days0 := cfg.ttl_days.getD 0
  let hours := cfg.ttl_hours.getD 0
  let minutes := cfg.ttl_minutes.getD 0
  let days := if days0 = 0 ∧ hours = 0 ∧ minutes = 0 then 30 else days0
  days * secondsPerDay + hours * secondsPerHour + minutes * secondsPerMinute

/-- `CacheManager.is_expired(timestamp)`: true when
`datetime.now(timezone.utc) - timestamp > ttl` (strict). -/
def is_expired (cfg : CacheConfig) (timestamp now : Int) : Bool :=
  now - timestamp > (ttlSeconds cfg : Int)

/-! ### Cached values — `CacheManager._convert_nested_tuples` -/

/-- A Python dictionary key as used by cached values: either a plain
(string) key or a tuple of strings. -/
inductive PyKey where
  | s (v : String)
  | tup (elems : List String)
deriving DecidableEq, Repr

/-- A cached Python value: an opaque scalar or a dictionary. Scalars are
collapsed into a string payload; nothing in the cache logic inspects
them. -/
inductive PyVal where
  | prim (v : String)
  | dict (entries : List (PyKey × PyVal))

/-- Python `d.get(k)` on a dict: first (only, for genuine dicts) binding. -/
def assocGet (d : List (PyKey × PyVal)) (k : PyKey) : Option PyVal :=
  match d with
  | [] => none
  | e :: rest => if e.fst = k then some e.snd else assocGet rest k

/-- Python `d[k] = v` on a dict: replaces in place when present, appends
at the end otherwise (insertion order preserved). -/
def assocSet (d : List (PyKey × PyVal)) (k : PyKey) (v : PyVal) :
    List (PyKey × PyVal) :=
  match d with
  | [] => [(k, v)]
  | e :: rest => if e.fst = k then (k, v) :: rest else e :: assocSet rest k v

/-- The `setdefault` walk of `_convert_nested_tuples` for one tuple key:
`for k in key[:-1]: current = current.setdefault(k, dict())` followed by
`current[key[-1]] = val`. An empty tuple raises `IndexError` and a
non-dict met along the walk makes the final item assignment raise
`TypeError`; both are modelled as `Except.error`. -/
def setPath (d : List (PyKey × PyVal)) (path : List String) (v : PyVal) :
    Except Unit (List (PyKey × PyVal)) :=
  match path with
  | [] => .error ()
  | [k] => .ok (assocSet d (.s k) v)
  | k :: rest =>
    match assocGet d (.s k) with
    | none =>
      match setPath [] rest v with
      | .ok sub => .ok (assocSet d (.s k) (.dict sub))
      | .error e => .error e
    | some (.dict sub) =>
      match setPath sub rest v with
      | .ok sub2 => .ok (assocSet d (.s k) (.dict sub2))
      | .error e => .error e
    | some (.prim _) => .error ()

/-- The entry loop of `_convert_nested_tuples`: tuple keys are expanded
into nested dicts, plain keys are copied through (values untouched). -/
def convertEntries (entries : List (PyKey × PyVal))
    (nested : List (PyKey × PyVal)) : Except Unit (List (PyKey × PyVal)) :=
  match entries with
  | [] => .ok nested
  | (key, val) :: rest =>
    match key with
    | .tup elems =>
      match setPath nested elems val with
      | .ok nested2 => convertEntries rest nested2
      | .error e => .error e
    | .s k => convertEntries rest (assocSet nested (.s k) val)

/-- `CacheManager._convert_nested_tuples(value)`: non-dicts are returned
as-is; a dict is rebuilt with every top-level tuple key expanded into a
chain of nested dicts. -/
def convert_nested_tuples (value : PyVal) : Except Unit PyVal :=
  match value with
  | .dict entries =>
    match convertEntries entries [] with
    | .ok nested => .ok (.dict nested)
    | .error e => .error e
  | v => .ok v

/-! ### Cache state and operations — `add`, `is_cached`, `get` -/

/-- One stored row: the (already converted) value and the UTC instant at
which `add` stored it. -/
structure CacheEntry where
  value : PyVal
  timestamp : Int

/-- The in-memory dict `self._cache`, keyed by string, together with the
instance TTL configuration. -/
structure CacheState where
  config : CacheConfig
  entries : List (String × CacheEntry)

def entryGet (d : List (String × CacheEntry)) (k : String) :
    Option CacheEntry :=
  match d with
  | [] => none
  | e :: rest => if e.fst = k then some e.snd else entryGet rest k

def entrySet (d : List (String × CacheEntry)) (k : String) (v : CacheEntry) :
    List (String × CacheEntry) :=
  match d with
  | [] => [(k, v)]
  | e :: rest => if e.fst = k then (k, v) :: rest else e :: entrySet rest k v

def entryDel (d : List (String × CacheEntry)) (k : String) :
    List (String × CacheEntry) :=
  match d with
  | [] => []
  | e :: rest => if e.fst = k then rest else e :: entryDel rest k

/-- `CacheManager.add(key, value)`: stores the converted value with the
current time as timestamp. A conversion error (raised in Python)
propagates. -/
def CacheState.add (c : CacheState) (now : Int) (k : String) (v : PyVal) :
    Except Unit CacheState :=
  match convert_nested_tuples v with
  | .ok w => .ok ⟨c.config, entrySet c.entries k ⟨w, now⟩⟩
  | .error e => .error e

/-- `CacheManager.is_cached(key)`: present and fresh; an expired entry is
deleted as a side effect and reported absent. -/
def CacheState.is_cached (c : CacheState) (now : Int) (k : String) :
    Bool × CacheState :=
  match entryGet c.entries k with
  | some item =>
    if is_expired c.config item.timestamp now then
      (false, ⟨c.config, entryDel c.entries k⟩)
    else (true, c)
  | none => (false, c)

/-- `CacheManager.get(key)`: the stored value when `is_cached` holds,
`None` otherwise (the lookup after a positive `is_cached` always
succeeds; the `none` fallback is unreachable). -/
def CacheState.get (c : CacheState) (now : Int) (k : String) :
    Option PyVal × CacheState :=
  match c.is_cached now k with
  | (true, c2) =>
    match entryGet c2.entries k with
    | some item => (some item.value, c2)
    | none => (none, c2)
  | (false, c2) => (none, c2)

/-! ### Persistence — `_save_cache` in `services/core/cache_manager.py`
versus `_save_cache` in `models/cache_manager.py`

The file system is a finite map from paths to file contents; a save is a
sequence of atomic file-system operations, and a crash is modelled as
executing only a prefix of that sequence. -/

/-- A file system: association list from path to content. -/
abbrev FileSys := List (String × String)

def fsRead (fs : FileSys) (p : String) : Option String :=
  match fs with
  | [] => none
  | e :: rest => if e.fst = p then some e.snd else fsRead rest p

def fsWrite (fs : FileSys) (p : String) (c : String) : FileSys :=
  match fs with
  | [] => [(p, c)]
  | e :: rest => if e.fst = p then (p, c) :: rest else e :: fsWrite rest p c

def fsDelete (fs : FileSys) (p : String) : FileSys :=
  match fs with
  | [] => []
  | e :: rest => if e.fst = p then fsDelete rest p else e :: fsDelete rest p

/-- Atomic file-system steps a save can take. `flushed` covers the
buffered write together with `flush` and `os.fsync`: after it the content
is durably on disk. `rename` is `os.replace`: atomic, overwrites the
destination. -/
inductive FsOp where
  | create (path : String)
  | flushed (path content : String)
  | rename (src dst : String)

def applyOp (fs : FileSys) : FsOp → FileSys
  | .create p => fsWrite fs p ""
  | .flushed p c => fsWrite fs p c
  | .rename src dst =>
    match fsRead fs src with
    | some c => fsWrite (fsDelete fs src) dst c
    | none => fs

def applyOps (fs : FileSys) (ops : List FsOp) : FileSys :=
  ops.foldl applyOp fs

/-- Rendering of one cached value for the JSON snapshot. The exact shape
of the rendering is irrelevant to the persistence claims; it only has to
be a concrete function of the snapshot. -/
def renderVal : PyVal → String
  | .prim v => v
  | .dict entries => "dict(" ++ renderEntries entries ++ ")"
where
  renderKey : PyKey → String
    | .s v => v
    | .tup elems => "tuple(" ++ String.intercalate "," elems ++ ")"
  renderEntries : List (PyKey × PyVal) → String
    | [] => ""
    | (k, v) :: rest => renderKey k ++ ":" ++ renderVal v ++ ";" ++ renderEntries rest

/-- One serialized row, value plus timestamp rendered as a string
(`isoformat` in the source; rendered here as the decimal seconds). -/
def renderRow (k : String) (e : CacheEntry) : String :=
  k ++ "=" ++ renderVal e.value ++ "@" ++ toString e.timestamp

/-- The serialized snapshot `json.dump` writes: every key with its value
and timestamp. -/
def serializeCache (entries : List (String × CacheEntry)) : String :=
  match entries with
  | [] => ""
  | (k, e) :: rest => renderRow k e ++ "\n" ++ serializeCache rest

/-- `services/core/cache_manager.py`, `CacheManager._save_cache`: create a
named temporary file in the destination directory, write the serialized
snapshot, flush and fsync it, then `os.replace` it over the destination. -/
def save_cache_ops (entries : List (String × CacheEntry)) (tmp dest : String) :
    List FsOp :=
  [.create tmp, .flushed tmp (serializeCache entries), .rename tmp dest]

/-- `models/cache_manager.py`, `CacheManager._save_cache`: `open` the
destination itself with mode "w" (truncating it) and write the serialized
snapshot into it. No temporary file, no rename. -/
def models_save_cache_ops (entries : List (String × CacheEntry))
    (dest : String) : List FsOp :=
  [.create dest, .flushed dest (serializeCache entries)]

/-! ### Task run loop — `services/threading/thread_manager.py`, `ThreadWrapper.run`

The wrapped loop, for a scenario in which neither the stop event, the
reload event nor the token pause event ever fires (nobody asks the task
to stop). Wall-clock time is an absolute second count; the loop reads the
time of day as seconds since midnight, exactly as `datetime.now().time()`
is reduced to seconds in the source. The entry point takes `dur` seconds
per invocation. `fuel` bounds the number of loop iterations so the
simulation is total; every produced trace is a real prefix of the loop's
behaviour. -/

/-- Schedule-relevant fields of a `ThreadWrapper`: `start_time` and
`end_time` as seconds since midnight (Python `None` is `none`), and
`cooldown_seconds` with 0 modelling the falsy `None`/0. -/
structure TaskCfg where
  start_time : Option Nat
  end_time : Option Nat
  cooldown_seconds : Nat
deriving DecidableEq, Repr

/-- `ThreadWrapper.run`, returning the absolute times at which the entry
point was invoked. Before the window opens the loop sleeps
`min(1, start - now)` seconds and re-checks; there is no check of
`end_time` before the invocation — `end_time` is only consulted after a
completed run and cooldown, where `now >= end` breaks the loop, and a
falsy cooldown breaks immediately after the first run. -/
def runLoop (cfg : TaskCfg) (dur : Nat) : Nat → Nat → List Nat
  | 0, _ => []
  | fuel + 1, t =>
    let nowSec := t % 86400
    let waiting : Bool := match cfg.start_time with
      | some s => decide (nowSec < s)
      | none => false
    if waiting then
      let s := (cfg.start_time.getD 0)
      runLoop cfg dur fuel (t + min 1 (s - nowSec))
    else
      let t2 := t + dur
      if cfg.cooldown_seconds ≠ 0 then
        let t3 := t2 + cfg.cooldown_seconds
        match cfg.end_time with
        | some e => if t3 % 86400 ≥ e then [t] else t :: runLoop cfg dur fuel t3
        | none => t :: runLoop cfg dur fuel t3
      else [t]

/-! ### Shutdown — `ThreadManager.stop_all`

`stop_all` sets the manager stop event, calls `stop()` on every wrapper
(setting its cooperative stop and reload events), then calls `t.join()`
on each — with no timeout argument — and finally joins the watcher
thread, again without a timeout. A thread is summarized by the instant
(seconds after its stop event is signalled) at which its target observes
the event and returns; `none` models a target that never exits. -/

structure ManagedThread where
  name : String
  exitsAfterStop : Option Nat
deriving DecidableEq, Repr

/-- Sequentially joining every thread, each `join()` without a timeout:
the sequence finishes at the latest exit instant, and does not finish at
all if any thread never exits. -/
def joinAll : List ManagedThread → Option Nat
  | [] => some 0
  | t :: rest =>
    match t.exitsAfterStop, joinAll rest with
    | some a, some b => some (max a b)
    | _, _ => none

/-- `ThreadManager.stop_all`: the instant at which it returns (counted
from the stop signal), or `none` when some worker or the watcher never
exits and the untimed `join()` blocks forever. -/
def stop_all_returnTime (threads : List ManagedThread)
    (watcherExit : Option Nat) : Option Nat :=
  match joinAll threads, watcherExit with
  | some a, some b => some (max a b)
  | _, _ => none

/-! ### Rate limiting — `services/scanner/scanner_utils.py`, `wait_rate_limit` -/

/-- A rate-limit cache row as `wait_rate_limit` reads it: the "Value"
field (reset offset in seconds from the timestamp) and the "Timestamp"
field, either of which can be missing. -/
structure RateEntry where
  value : Option Int
  timestamp : Option Int
deriving DecidableEq, Repr

/-- What one call to `wait_rate_limit` did: the durations of the
`time.sleep` calls it performed, in order, and whether it removed the
cache entry for the key. -/
structure WaitOutcome where
  sleeps : List Int
  removed : Bool
deriving DecidableEq, Repr

/-- `wait_rate_limit(cache, key)` at wall-clock instant `now`, where
`entry` is the cache row for `key` (`none` when absent). An absent or
malformed row returns at once; an expired row is deleted; an active row
is waited out with a single `time.sleep(remaining)` for the whole
remaining time — the function receives no stop event and no cancellation
signal — after which the row is removed. -/
def wait_rate_limit (entry : Option RateEntry) (now : Int) : WaitOutcome :=
  match entry with
  | none => ⟨[], false⟩
  | some e =>
    match e.value, e.timestamp with
    | some reset, some ts =>
      let resetTime := ts + reset
      if now ≥ resetTime then ⟨[], true⟩
      else ⟨[resetTime - now], true⟩
    | _, _ => ⟨[], false⟩

/-! ### Hot reload — `ThreadManager._handle_file_change`

The reload-selection logic: which registered threads get stopped and
restarted for one detected change. The stop/join/module-reload/restart
mechanics act on exactly the selected threads, in order. -/

/-- The fields of a `ThreadWrapper` that `_handle_file_change` consults:
its name, the module of its target function, its watched `_reload_files`,
its `_parent` and its `_module_dependencies`. -/
structure Wrapper where
  name : String
  targetModule : String
  reload_files : List String
  parent : Option String
  module_dependencies : List String
deriving DecidableEq, Repr

/-- `ThreadManager._handle_file_change(filepath)`: the names of the
threads it stops and restarts, in order. First every thread whose
`_reload_files` contain the resolved path; then, for each registered
module whose mtime changed, every thread whose target module or
`_module_dependencies` include that module. The wrapper's `_parent` field
is copied onto the restarted wrapper but never consulted when selecting
threads. -/
def handle_file_change (threads : List Wrapper)
    (registeredChanged : List String) (path : String) : List String :=
  let byFile := (threads.filter (fun w => path ∈ w.reload_files)).map (fun w => w.name)
  let byModule := registeredChanged.foldl
    (fun acc m => acc ++
      ((threads.filter (fun w => w.targetModule = m ∨ m ∈ w.module_dependencies)).map
        (fun w => w.name))) []
  byFile ++ byModule

/-! ### Pipeline workers — `services/scanner/buy_scanner.py`,
`api_worker` and `analysis_worker`

One loop iteration of each worker, reduced to its externally visible
actions. `run_buy_scan` starts every `api_worker` with `ignore_cache=None`
(`args=(stop_event, None)`), which `ignoreCachePresent` records. -/

/-- How one `consumer.get_option_chain(ticker)` call ends. -/
inductive FetchOutcome where
  | ok (payload : String)
  | timeoutErr
  | noExpiry (msg : String)
  | invalidSymbol (msg : String)
  | noOptions (msg : String)
  | tokenExpired
  | otherErr (msg : String)
deriving DecidableEq, Repr

/-- The externally visible effect of one `api_worker` iteration: whether
the ticker was put back on the fetch queue, what (if anything) was pushed
on the result queue — a `none` payload is the failure marker
`(ticker, None)` — and which ticker (if any) was recorded into the
worker's ignore cache. -/
structure ApiAction where
  requeued : Bool
  pushed : Option (String × Option String)
  ignoreAdded : Option String
deriving DecidableEq, Repr

/-- One `api_worker` iteration on `ticker` with the given fetch outcome.
`TimeoutError` and `TokenExpiredError` requeue the same ticker (the
latter after waiting for the token); `NoExpiryError`, `InvalidSymbolError`
and `NoOptionsError` are recorded into the worker's ignore cache when one
was supplied and push nothing downstream; any other exception pushes the
failure marker `(ticker, None)`; success pushes `(ticker, options)`. -/
def api_worker_step (ignoreCachePresent : Bool) (ticker : String) :
    FetchOutcome → ApiAction
  | .ok payload => ⟨false, some (ticker, some payload), none⟩
  | .timeoutErr => ⟨true, none, none⟩
  | .noExpiry _ => ⟨false, none, if ignoreCachePresent then some ticker else none⟩
  | .invalidSymbol _ => ⟨false, none, if ignoreCachePresent then some ticker else none⟩
  | .noOptions _ => ⟨false, none, if ignoreCachePresent then some ticker else none⟩
  | .tokenExpired => ⟨true, none, none⟩
  | .otherErr _ => ⟨false, some (ticker, none), none⟩

/-- The externally visible effect of one `analysis_worker` iteration on a
dequeued `(ticker, options)` item. -/
structure AnalysisAction where
  ignoreAdded : Option String
  analyzeCalled : Bool
  loggedMarker : Bool
  continues : Bool
deriving DecidableEq, Repr

/-- One `analysis_worker` iteration on `(ticker, options)`. A real
payload goes to `analyze_ticker` (whose own failures are caught in the
worker and logged, or requeue on `YFTooManyAttempts` — never aborting the
loop); a `None` payload — the failure marker — is only logged and
written to the scratch file, nothing is recorded into any cache, and the
loop continues. -/
def analysis_worker_step (ticker : String) (options : Option String) :
    AnalysisAction :=
  match options with
  | some _ => ⟨none, true, false, true⟩
  | none => ⟨none, false, true, true⟩

/-! ### Resume position — `run_buy_scan`, start-index computation -/

/-- The start-index computation at the top of `run_buy_scan`:
`start_index = ticker_keys.index(last_seen) + 1` when the cached
`lastSeen` is truthy and occurs in the list, else 0; then
`if start_index >= len(ticker_keys) - 1: start_index = 0`. -/
def compute_start_index (ticker_keys : List String)
    (last_seen : Option String) : Nat :=
  let start0 : Nat :=
    match last_seen with
    | some ls => if ls ≠ "" ∧ ls ∈ ticker_keys then ticker_keys.indexOf ls + 1 else 0
    | none => 0
  if start0 ≥ ticker_keys.length - 1 then 0 else start0

/-- The same computation as claim C10 words it: restart from 0 when the
resume position is at or beyond the second-to-last index
(`length - 2`) of the list. -/
def compute_start_index_claimC10 (ticker_keys : List String)
    (last_seen : Option String) : Nat :=
  let start0 : Nat :=
    match last_seen with
    | some ls => if ls ≠ "" ∧ ls ∈ ticker_keys then ticker_keys.indexOf ls + 1 else 0
    | none => 0
  if start0 ≥ ticker_keys.length - 2 then 0 else start0

/-! ### The legacy TTL computation — `models/cache_manager.py`, `CacheManager.is_expired` -/

/-- `models/cache_manager.py`, `CacheManager.is_expired`: the three-way
default handling of the legacy class, followed by the same
`timedelta(days, hours, minutes)` sum. -/
def models_ttlSeconds (cfg : CacheConfig) : Nat :=
  if cfg.ttl_days = none ∧ cfg.ttl_hours = none ∧ cfg.ttl_minutes = none then
    30 * secondsPerDay
  else if cfg.ttl_days ≠ none ∨ cfg.ttl_hours ≠ none then
    cfg.ttl_days.getD 0 * secondsPerDay + cfg.ttl_hours.getD 0 * secondsPerHour +
      cfg.ttl_minutes.getD 0 * secondsPerMinute
  else
    cfg.ttl_minutes.getD 0 * secondsPerMinute

def models_is_expired (cfg : CacheConfig) (timestamp now : Int) : Bool :=
  now - timestamp > (models_ttlSeconds cfg : Int)

/-! ### Claim-side definitions (written from the claims' words, for
comparison against the source embeddings) -/

/-- The TTL as claim C2 words it: the MAXIMUM of the configured day, hour
and minute components, 30 days when no component is configured. -/
def ttlSeconds_claimC2 (cfg : CacheConfig) : Nat :=
  if cfg.ttl_days = none ∧ cfg.ttl_hours = none ∧ cfg.ttl_minutes = none then
    30 * secondsPerDay
  else
    max (cfg.ttl_days.getD 0 * secondsPerDay)
      (max (cfg.ttl_hours.getD 0 * secondsPerHour)
        (cfg.ttl_minutes.getD 0 * secondsPerMinute))

/-- The TTL as the amended claim C2 words it: the SUM of the components,
30 days substituted when the configured components sum to zero. -/
def ttlSeconds_sumClaim (cfg : CacheConfig) : Nat :=
  if cfg.ttl_days.getD 0 = 0 ∧ cfg.ttl_hours.getD 0 = 0 ∧ cfg.ttl_minutes.getD 0 = 0 then
    30 * secondsPerDay
  else
    cfg.ttl_days.getD 0 * secondsPerDay + cfg.ttl_hours.getD 0 * secondsPerHour +
      cfg.ttl_minutes.getD 0 * secondsPerMinute

/-- The legacy TTL as the amended claim C2 words it: the sum of the
components each defaulting to zero, 30 days when all three are `None`. -/
def models_ttlSeconds_sumClaim (cfg : CacheConfig) : Nat :=
  if cfg.ttl_days = none ∧ cfg.ttl_hours = none ∧ cfg.ttl_minutes = none then
    30 * secondsPerDay
  else
    cfg.ttl_days.getD 0 * secondsPerDay + cfg.ttl_hours.getD 0 * secondsPerHour +
      cfg.ttl_minutes.getD 0 * secondsPerMinute

/-! ### Helpers and concrete instances used by the claim theorems -/

/-- `add(k, v)` immediately followed by `get(k)`, the composite claim C3
quantifies over (`none` when `add` raised). -/
def addThenGet (c : CacheState) (now : Int) (k : String) (v : PyVal) :
    Option PyVal :=
  match c.add now k v with
  | .ok c2 => (c2.get now k).fst
  | .error _ => none

/-- The state after a successful `add` (the input state again when `add`
raised; the amended theorem's hypothesis rules that case out). -/
def addOk (c : CacheState) (now : Int) (k : String) (v : PyVal) : CacheState :=
  match c.add now k v with
  | .ok c2 => c2
  | .error _ => c

/-- A dict value with a tuple key: `add` stores its nested-dict expansion
rather than the value itself. -/
def c3Val : PyVal := .dict [(.tup ["a", "b"], .prim "x")]

/-- An empty 30-day cache. -/
def c3Cache : CacheState := ⟨⟨some 30, none, none⟩, []⟩

/-- A schedule window from second 100 to second 200 of the day with a
10-second cooldown. -/
def c4Cfg : TaskCfg := ⟨some 100, some 200, 10⟩

/-- A destination file holding the previous save. -/
def c1OldFs : FileSys := [("cache.json", "old snapshot")]

/-- A one-row snapshot to be saved. -/
def c1Entries : List (String × CacheEntry) := [("k", ⟨.prim "v", 0⟩)]

/-- Two tasks sharing the parent "P"; only the first watches the changed
file. -/
def c7WrapperA : Wrapper := ⟨"A", "mod_a", ["shared.py"], some "P", []⟩

def c7WrapperB : Wrapper := ⟨"B", "mod_b", [], some "P", []⟩

/-! ## Theorems -/

/-- Helper: the TTL computed by `CacheManager.is_expired` is the component
sum with the 30-day fallback. -/
theorem ttlSeconds_eq_sumClaim (cfg : CacheConfig) :
    ttlSeconds cfg = ttlSeconds_sumClaim cfg := by
  by_cases h : cfg.ttl_days.getD 0 = 0 ∧ cfg.ttl_hours.getD 0 = 0 ∧
      cfg.ttl_minutes.getD 0 = 0
  · obtain ⟨h1, h2, h3⟩ := h
    simp [ttlSeconds, ttlSeconds_sumClaim, h1, h2, h3]
  · simp only [ttlSeconds, ttlSeconds_sumClaim, if_neg h]

/-- Helper: the legacy three-branch default handling collapses to the sum
with a 30-day fallback exactly when all three components are `None`. -/
theorem models_ttlSeconds_eq_sumClaim (cfg : CacheConfig) :
    models_ttlSeconds cfg = models_ttlSeconds_sumClaim cfg := by
  obtain ⟨d, h, m⟩ := cfg
  cases d <;> cases h <;> cases m <;>
    simp [models_ttlSeconds, models_ttlSeconds_sumClaim]

/-- C2, counterexample: with `ttl_days=1, ttl_hours=12` the code's TTL is
the 36-hour sum, not the 1-day maximum — an entry aged 100000 seconds
(about 27.8 hours, beyond the claimed maximum TTL) is reported
unexpired. -/
theorem C2_counterexample :
    is_expired ⟨some 1, some 12, none⟩ 0 100000 = false ∧
    (100000 : Int) - 0 > (ttlSeconds_claimC2 ⟨some 1, some 12, none⟩ : Int) := by
  decide

/-- C2, amended: the TTL a cache instance applies is the SUM of its day,
hour and minute components (each missing component taken as 0), with 30
days substituted when the configured components sum to zero — in the
legacy `models` class, 30 days substituted only when all three are
`None`; an entry is expired iff now minus its stored timestamp strictly
exceeds this TTL. -/
theorem C2_ttl_is_component_sum (cfg : CacheConfig) (ts now : Int) :
    (is_expired cfg ts now = true ↔ now - ts > (ttlSeconds_sumClaim cfg : Int)) ∧
    (models_is_expired cfg ts now = true ↔
      now - ts > (models_ttlSeconds_sumClaim cfg : Int)) := by
  constructor
  · rw [is_expired, ttlSeconds_eq_sumClaim]
    exact decide_eq_true_iff
  · rw [models_is_expired, models_ttlSeconds_eq_sumClaim]
    exact decide_eq_true_iff

/-- C9: a cache constructed with `ttl_days=0, ttl_hours=0, ttl_minutes=0`
silently falls back to the 30-day default — an entry stored at `ts` is
reported unexpired for every `now` at most 30 days later. -/
theorem C9_zero_ttl_gets_default (ts now : Int)
    (h : now - ts ≤ 30 * (secondsPerDay : Int)) :
    is_expired ⟨some 0, some 0, some 0⟩ ts now = false := by
  have httl : ttlSeconds ⟨some 0, some 0, some 0⟩ = 30 * secondsPerDay := by
    simp [ttlSeconds]
  simp only [is_expired, httl, decide_eq_false_iff_not, not_lt]
  exact_mod_cast h

/-- C9, witness: at exactly 30 days of age the entry is still reported
fresh. -/
theorem C9_zero_ttl_gets_default_witness :
    is_expired ⟨some 0, some 0, some 0⟩ 0 2592000 = false :=
  C9_zero_ttl_gets_default 0 2592000 (by decide)

/-- C10, counterexample: with tickers `["A", "B", "C"]` and
`lastSeen = "A"` the resume position 1 IS the second-to-last index, so
the claim mandates a restart from 0, but the code only restarts when the
resume position reaches the LAST index — it resumes at 1. -/
theorem C10_counterexample :
    compute_start_index ["A", "B", "C"] (some "A") = 1 ∧
    compute_start_index_claimC10 ["A", "B", "C"] (some "A") = 0 := by
  decide

/-- C10, amended: when the cached `lastSeen` is truthy and occurs in the
ticker list at index `i`, the scan resumes at `i + 1`, except that a
resume position at or beyond the LAST index (`length - 1`) restarts the
scan from index 0. -/
theorem C10_resume_index (keys : List String) (ls : String) (i : Nat)
    (hne : ls ≠ "") (hmem : ls ∈ keys) (hidx : keys.indexOf ls = i) :
    (i + 1 < keys.length - 1 → compute_start_index keys (some ls) = i + 1) ∧
    (keys.length - 1 ≤ i + 1 → compute_start_index keys (some ls) = 0) := by
  constructor
  · intro hlt
    simp only [compute_start_index, hne, hmem, hidx, ne_eq, not_false_iff,
      true_and, if_true]
    rw [if_neg (by omega)]
  · intro hge
    simp only [compute_start_index, hne, hmem, hidx, ne_eq, not_false_iff,
      true_and, if_true]
    rw [if_pos (by omega)]

/-- C10, witness: with four tickers and `lastSeen` at index 0, the scan
resumes at index 1. -/
theorem C10_resume_index_witness :
    compute_start_index ["A", "B", "C", "D"] (some "A") = 1 :=
  (C10_resume_index ["A", "B", "C", "D"] "A" 0 (by decide) (by decide)
    (by decide)).1 (by decide)

/-- C6, counterexample: for a provider limited for another 3600 seconds,
`wait_rate_limit` performs one single `time.sleep(3600)` — one blocking
sleep for the whole remaining time, far beyond any fixed small increment,
with no cancellation signal in scope. -/
theorem C6_counterexample :
    (wait_rate_limit (some ⟨some 3600, some 0⟩) 0).sleeps = [3600] ∧
    ¬ (3600 : Int) ≤ 1 := by
  decide

/-- C6, amended: when the rate-limit record for the provider has not yet
expired, `wait_rate_limit` blocks in ONE `time.sleep` covering the whole
remaining time (it receives no stop event and is not cancellable), after
which it removes the record; expired, absent or malformed records return
without sleeping. -/
theorem C6_single_full_sleep (reset ts now : Int) (h : now < ts + reset) :
    wait_rate_limit (some ⟨some reset, some ts⟩) now = ⟨[ts + reset - now], true⟩ := by
  simp only [wait_rate_limit]
  rw [if_neg (by omega)]

/-- C6, witness: a record set at 100 with a 5-second reset, consulted at
102, is slept out in a single 3-second sleep and removed. -/
theorem C6_single_full_sleep_witness :
    wait_rate_limit (some ⟨some 5, some 100⟩) 102 = ⟨[3], true⟩ :=
  C6_single_full_sleep 5 100 102 (by decide)

/-- C5, counterexample: one registered task whose worker never observes
the stop event (its target blocks forever) makes `stop_all` block forever
in `t.join()` — there is no join timeout, so `stop_all` never returns. -/
theorem C5_counterexample :
    stop_all_returnTime [⟨"stuck worker", none⟩] (some 0) = none := by
  decide

/-- C5, amended: `stop_all` cancels every task and joins each one WITHOUT
a timeout; it returns precisely when every task thread and the watcher
thread have terminated on their own — a single worker that never exits
keeps `stop_all` blocked unboundedly. -/
theorem C5_stop_all_returns_iff_all_exit (threads : List ManagedThread)
    (watcherExit : Option Nat) :
    stop_all_returnTime threads watcherExit ≠ none ↔
      ((∀ t ∈ threads, t.exitsAfterStop ≠ none) ∧ watcherExit ≠ none) := by
  have hjoin : joinAll threads ≠ none ↔ ∀ t ∈ threads, t.exitsAfterStop ≠ none := by
    induction threads with
    | nil => simp [joinAll]
    | cons t rest ih =>
      cases ht : t.exitsAfterStop with
      | none => simp [joinAll, ht, List.forall_mem_cons]
      | some a =>
        cases hr : joinAll rest with
        | none => simp [joinAll, ht, hr, List.forall_mem_cons, ← ih]
        | some b => simp [joinAll, ht, hr, List.forall_mem_cons, ← ih]
  unfold stop_all_returnTime
  cases hj : joinAll threads with
  | none =>
    simp only [hj] at hjoin
    cases watcherExit <;> simp_all
  | some a =>
    simp only [hj] at hjoin
    cases watcherExit <;> simp_all

/-- C7, counterexample: tasks "A" and "B" share the parent "P"; a change
to a file watched only by "A" reloads "A" but does NOT cascade to "B" —
`_handle_file_change` never consults the `parent` field. -/
theorem C7_counterexample :
    "A" ∈ handle_file_change [c7WrapperA, c7WrapperB] [] "shared.py" ∧
    "B" ∉ handle_file_change [c7WrapperA, c7WrapperB] [] "shared.py" ∧
    c7WrapperA.parent = c7WrapperB.parent := by
  decide

/-- C7, amended: a watched-file change reloads exactly the tasks whose
`_reload_files` contain the changed path; the `parent` attribute is
carried on every wrapper but triggers no cascade, so sibling tasks
sharing the parent are left running. -/
theorem C7_reload_only_watching_tasks (threads : List Wrapper)
    (path n : String) :
    n ∈ handle_file_change threads [] path ↔
      ∃ w ∈ threads, w.name = n ∧ path ∈ w.reload_files := by
  simp only [handle_file_change, List.foldl_nil, List.append_nil,
    List.mem_map, List.mem_filter, decide_eq_true_eq]
  constructor
  · rintro ⟨w, ⟨hw, hpath⟩, hname⟩
    exact ⟨w, hw, hname, hpath⟩
  · rintro ⟨w, hw, hname, hpath⟩
    exact ⟨w, ⟨hw, hpath⟩, hname⟩

/-- C8, counterexample: a `NoExpiryError` — neither a rate-limit nor an
authorization signal — makes `api_worker` push NOTHING downstream
(no failure marker), and an `analysis_worker` that dequeues the failure
marker `(ticker, None)` records NOTHING into the ignore cache (it only
logs); the loop does continue. -/
theorem C8_counterexample :
    (api_worker_step false "XYZ" (.noExpiry "no expiry")).pushed = none ∧
    (analysis_worker_step "XYZ" none).ignoreAdded = none ∧
    (analysis_worker_step "XYZ" none).continues = true := by
  decide

/-- C8, amended: only an UNCLASSIFIED fetch error pushes the failure
marker `(ticker, None)` downstream (the classified `NoExpiry`,
`InvalidSymbol` and `NoOptions` errors are absorbed in the fetch worker,
recorded into its ignore cache only when one was supplied —
`run_buy_scan` supplies none); the analysis worker logs a failure marker
without touching the ignore cache and continues, so no single subject's
failure aborts the pipeline run. -/
theorem C8_failure_marker_path (present : Bool) (ticker msg : String) :
    api_worker_step present ticker (.otherErr msg) =
      ⟨false, some (ticker, none), none⟩ ∧
    analysis_worker_step ticker none = ⟨none, false, true, true⟩ ∧
    (api_worker_step present ticker (.noExpiry msg)).pushed = none ∧
    (api_worker_step false ticker (.noExpiry msg)).ignoreAdded = none :=
  ⟨rfl, rfl, rfl, rfl⟩

/-- Helper: looking up the key just stored finds the stored entry. -/
theorem entryGet_entrySet_self (d : List (String × CacheEntry)) (k : String)
    (e : CacheEntry) : entryGet (entrySet d k e) k = some e := by
  induction d with
  | nil => simp [entrySet, entryGet]
  | cons hd tl ih =>
    by_cases hk : hd.fst = k
    · simp [entrySet, entryGet, hk]
    · simp [entrySet, entryGet, hk, ih]

/-- Helper: an entry stored now is not expired now (the TTL is never
negative). -/
theorem is_expired_now_false (cfg : CacheConfig) (t : Int) :
    is_expired cfg t t = false := by
  simp only [is_expired, sub_self, decide_eq_false_iff_not, not_lt]
  exact Int.ofNat_nonneg _

/-- C3, counterexample: for the dict value with the tuple key
`("a", "b")`, `add(k, v)` immediately followed by `get(k)` does NOT
return v — it returns the nested-dict expansion that
`_convert_nested_tuples` stored in its place. -/
theorem C3_counterexample : addThenGet c3Cache 0 "K" c3Val ≠ some c3Val := by
  have h : addThenGet c3Cache 0 "K" c3Val =
      some (.dict [(.s "a", .dict [(.s "b", .prim "x")])]) := rfl
  rw [h]
  simp [c3Val]

/-- C3, amended: `add(k, v)` stores the nested-tuple-converted form of v,
so an immediate `get(k)` returns exactly `_convert_nested_tuples(v)`
(which differs from v when v is a dict with tuple keys); once simulated
time has advanced strictly past the cache's TTL since the add, `get(k)`
returns nothing and a subsequent `is_cached(k)` returns false. -/
theorem C3_add_get_roundtrip (c : CacheState) (now later : Int) (k : String)
    (v w : PyVal) (hconv : convert_nested_tuples v = .ok w)
    (hlater : later - now > (ttlSeconds c.config : Int)) :
    c.add now k v = .ok (addOk c now k v) ∧
    ((addOk c now k v).get now k).fst = some w ∧
    ((addOk c now k v).get later k).fst = none ∧
    ((addOk c now k v).is_cached later k).fst = false := by
  have hadd : c.add now k v = .ok ⟨c.config, entrySet c.entries k ⟨w, now⟩⟩ := by
    simp [CacheState.add, hconv]
  have haddOk : addOk c now k v = ⟨c.config, entrySet c.entries k ⟨w, now⟩⟩ := by
    simp [addOk, hadd]
  have hfind : entryGet (entrySet c.entries k ⟨w, now⟩) k = some ⟨w, now⟩ :=
    entryGet_entrySet_self c.entries k ⟨w, now⟩
  have hexp : is_expired c.config now later = true := by
    simp only [is_expired, decide_eq_true_eq]
    exact hlater
  have hcached_later :
      (CacheState.is_cached ⟨c.config, entrySet c.entries k ⟨w, now⟩⟩ later k) =
        (false, ⟨c.config, entryDel (entrySet c.entries k ⟨w, now⟩) k⟩) := by
    simp [CacheState.is_cached, hfind, hexp]
  refine ⟨by rw [hadd, haddOk], ?_, ?_, ?_⟩
  · rw [haddOk]
    simp [CacheState.get, CacheState.is_cached, hfind, is_expired_now_false]
  · rw [haddOk]
    simp [CacheState.get, hcached_later]
  · rw [haddOk, hcached_later]

/-- C3, witness: a scalar value survives conversion unchanged, is
returned by an immediate get, and is gone once 30 days plus a second have
passed. -/
theorem C3_add_get_roundtrip_witness :
    c3Cache.add 0 "K" (.prim "p") = .ok (addOk c3Cache 0 "K" (.prim "p")) ∧
    ((addOk c3Cache 0 "K" (.prim "p")).get 0 "K").fst = some (.prim "p") ∧
    ((addOk c3Cache 0 "K" (.prim "p")).get 2592001 "K").fst = none ∧
    ((addOk c3Cache 0 "K" (.prim "p")).is_cached 2592001 "K").fst = false :=
  C3_add_get_roundtrip c3Cache 0 2592001 "K" (.prim "p") (.prim "p") rfl
    (by decide)

/-- C4, counterexample: a task with window [100, 200] whose loop first
checks the clock at second 300 of the day — after the window closed —
invokes its entry point immediately at 300: `run` checks only
`start_time` before the invocation, never `end_time`. -/
theorem C4_counterexample :
    runLoop c4Cfg 5 3 300 = [300] ∧ ¬ (300 ≤ 200) := by
  decide

/-- Helper: every invocation `runLoop` performs happens at or after the
start-of-day bound — the loop sleeps and re-checks while the time of day
is before `start_time`. -/
theorem runLoop_invokes_after_start (cfg : TaskCfg) (dur s : Nat)
    (hs : cfg.start_time = some s) :
    ∀ fuel t τ, τ ∈ runLoop cfg dur fuel t → s ≤ τ % 86400 := by
  intro fuel
  induction fuel with
  | zero =>
    intro t τ h
    simp [runLoop] at h
  | succ n ih =>
    intro t τ h
    rw [runLoop] at h
    simp only [hs] at h
    by_cases hwait : t % 86400 < s
    · rw [if_pos (by simpa using hwait)] at h
      exact ih _ τ h
    · rw [if_neg (by simpa using hwait)] at h
      by_cases hcd : cfg.cooldown_seconds ≠ 0
      · rw [if_pos hcd] at h
        cases he : cfg.end_time with
        | some e =>
          rw [he] at h
          dsimp only at h
          by_cases hend : (t + dur + cfg.cooldown_seconds) % 86400 ≥ e
          · rw [if_pos hend] at h
            simp at h
            subst h
            omega
          · rw [if_neg hend] at h
            rcases List.mem_cons.mp h with rfl | hmem
            · omega
            · exact ih _ τ hmem
        | none =>
          rw [he] at h
          dsimp only at h
          rcases List.mem_cons.mp h with rfl | hmem
          · omega
          · exact ih _ τ hmem
      · rw [if_neg hcd] at h
        simp at h
        subst h
        omega

/-- C4, amended: before the window opens the loop waits — when
`start_time` is configured, every invocation of the entry point happens
at a time of day at or after `start_time` — but the close of the window
is only consulted after a completed run and cooldown, so (as the
counterexample shows) invocations can still happen after `end_time`. -/
theorem C4_no_invocation_before_start (cfg : TaskCfg) (dur fuel t0 s : Nat)
    (hs : cfg.start_time = some s) :
    (runLoop cfg dur fuel t0).all (fun τ => decide (s ≤ τ % 86400)) = true := by
  rw [List.all_eq_true]
  intro τ hτ
  simpa using runLoop_invokes_after_start cfg dur s hs fuel t0 τ hτ

/-- C4, witness: in the counterexample trace every invocation is at or
after second 100 of the day. -/
theorem C4_no_invocation_before_start_witness :
    (runLoop c4Cfg 5 3 300).all (fun τ => decide (100 ≤ τ % 86400)) = true :=
  C4_no_invocation_before_start c4Cfg 5 3 300 100 rfl

/-- Helper: writing a file leaves every other path unchanged. -/
theorem fsRead_fsWrite_ne (fs : FileSys) (p q c : String) (h : p ≠ q) :
    fsRead (fsWrite fs p c) q = fsRead fs q := by
  induction fs with
  | nil => simp [fsWrite, fsRead, h]
  | cons e rest ih =>
    by_cases he : e.fst = p
    · simp [fsWrite, fsRead, he, h]
    · by_cases hq : e.fst = q
      · simp [fsWrite, fsRead, he, hq, Ne.symm h]
      · simp [fsWrite, fsRead, he, hq, ih]

/-- Helper: reading back the file just written yields its content. -/
theorem fsRead_fsWrite_self (fs : FileSys) (p c : String) :
    fsRead (fsWrite fs p c) p = some c := by
  induction fs with
  | nil => simp [fsWrite, fsRead]
  | cons e rest ih =>
    by_cases he : e.fst = p
    · simp [fsWrite, fsRead, he]
    · simp [fsWrite, fsRead, he, ih]

/-- C1, counterexample: the legacy `models/cache_manager.py` save opens
the destination itself with mode "w"; a crash right after the truncating
open (before the snapshot is written) leaves the destination EMPTY, not
byte-for-byte the previous save — the claim fails for those cache
instances (they are live: `services/scanner.py` and
`services/sell_scanner.py` import this class). -/
theorem C1_counterexample :
    fsRead (applyOps c1OldFs ((models_save_cache_ops c1Entries "cache.json").take 1))
      "cache.json" = some "" ∧
    some "" ≠ some "old snapshot" := by
  constructor
  · rfl
  · decide

/-- C1, amended: the `services/core` `CacheManager._save_cache` is
atomic — it writes the serialized snapshot to a temporary file in the
destination directory, flushes and fsyncs it, then atomically renames it
over the destination, so stopping after any proper prefix of its steps
leaves the destination exactly as the previous save left it, and the
completed save leaves exactly the new snapshot; the legacy
`models/cache_manager.py` save instead truncates and rewrites the
destination in place and has no such guarantee. -/
theorem C1_core_save_is_atomic (fs : FileSys)
    (entries : List (String × CacheEntry)) (tmp dest : String)
    (hne : tmp ≠ dest) (n : Nat) (hn : n < 3) :
    fsRead (applyOps fs ((save_cache_ops entries tmp dest).take n)) dest =
      fsRead fs dest ∧
    fsRead (applyOps fs (save_cache_ops entries tmp dest)) dest =
      some (serializeCache entries) := by
  constructor
  · interval_cases n
    · rfl
    · simpa [save_cache_ops, applyOps, applyOp] using
        fsRead_fsWrite_ne fs tmp dest "" hne
    · simp only [save_cache_ops, applyOps, List.take, List.foldl, applyOp]
      rw [fsRead_fsWrite_ne _ _ _ _ hne, fsRead_fsWrite_ne _ _ _ _ hne]
  · simp only [save_cache_ops, applyOps, List.foldl, applyOp]
    rw [fsRead_fsWrite_self]
    exact fsRead_fsWrite_self _ dest (serializeCache entries)

/-- C1, witness: saving a one-row snapshot over an existing file — the
prefix stopping before the rename still reads the old snapshot, the full
sequence reads the new one. -/
theorem C1_core_save_is_atomic_witness :
    (fsRead (applyOps c1OldFs ((save_cache_ops c1Entries "cache.json.tmp" "cache.json").take 2))
        "cache.json" = fsRead c1OldFs "cache.json" ∧
     fsRead (applyOps c1OldFs (save_cache_ops c1Entries "cache.json.tmp" "cache.json"))
        "cache.json" = some (serializeCache c1Entries)) :=
  C1_core_save_is_atomic c1OldFs c1Entries "cache.json.tmp" "cache.json"
    (by decide) 2 (by decide)

end OptionsAlerts
